import Mathlib

/-!
Verification of the NMT-ENGINEERING dashboard backend data path
(`src/backend/dashboard/utils.py` and `src/backend/dashboard/views.py`)
against its natural-language specification.

The Python data path is shallowly embedded: a pandas `DataFrame` becomes a
`DataFrame` structure with a column-name list and a row list; scalar cells
become the `Cell` inductive (`nan` covers NaN/NaT/None missing values);
configuration reads (`decouple.config`) become explicit `Config` fields;
outcomes of external network calls (gspread authorization, worksheet reads,
the public export fetch) become explicit boolean/value parameters, since
their success is decided outside this repository.  File-system state is
threaded explicitly: the local spreadsheet file is an `Option DataFrame`
(`none` = file absent), and remote writes are returned as an explicit list
of `(row, column, value)` cell writes instead of being performed.
-/

/-- A scalar spreadsheet cell, as pandas materialises it: a string, a
number, a date/time (`pd.Timestamp` / `datetime`, kept as year-month-day),
or a missing value (NaN / NaT / None, all of which satisfy `pd.isna`). -/
inductive Cell where
  | str : String → Cell
  | num : Int → Cell
  | date : (y m d : Nat) → Cell
  | nan : Cell
deriving DecidableEq, Repr

/-- A pandas DataFrame: ordered column names plus ordered rows of cells.
Rows read from a real spreadsheet are rectangular (each row has one cell
per column); theorems that need this state it as a hypothesis. -/
structure DataFrame where
  cols : List String
  rows : List (List Cell)
deriving DecidableEq, Repr

/-- A JSON value as serialised into a response record: null, string or
number (dates have been rendered to strings by the time JSON is built). -/
inductive JsonVal where
  | null : JsonVal
  | s : String → JsonVal
  | n : Int → JsonVal
deriving DecidableEq, Repr

/-- The configuration values the data path reads through `decouple.config`
(`utils.py` lines 11-47).  Only the fields the data path branches on are
modelled; the remaining credential fields are carried verbatim into the
bundle and never inspected. -/
structure Config where
  USE_GOOGLE_SHEETS : Bool
  GOOGLE_SHEET_URL : String
  GOOGLE_CLIENT_EMAIL : String
  GOOGLE_PRIVATE_KEY : String
deriving DecidableEq, Repr

/-- `use_google_sheets` (utils.py line 11): the source-selector flag. -/
def use_google_sheets (cfg : Config) : Bool :=
  cfg.USE_GOOGLE_SHEETS

/-- Substring search: drop characters until `sep` is a prefix, then return
what follows it; `none` when `sep` does not occur.  Mirrors locating the
first occurrence of a separator, as Python `str.split(sep)[1]` does. -/
def findAfter (sep : List Char) : List Char → Option (List Char)
  | [] => if sep.isPrefixOf ([] : List Char) then some [] else none
  | c :: cs =>
    if sep.isPrefixOf (c :: cs) then some ((c :: cs).drop sep.length)
    else findAfter sep cs

/-- Take characters up to (excluding) the first occurrence of `c`, as
Python `str.split(c)[0]` does. -/
def takeUntil (c : Char) : List Char → List Char
  | [] => []
  | x :: xs => if x = c then [] else x :: takeUntil c xs

/-- `get_google_sheet_id` (utils.py lines 15-21): if `'/d/'` occurs in the
configured URL, return the substring after the first `'/d/'` up to the next
`'/'`; otherwise `None`. -/
def get_google_sheet_id (cfg : Config) : Option String :=
  match findAfter "/d/".toList cfg.GOOGLE_SHEET_URL.toList with
  | some rest => some (String.mk (takeUntil '/' rest))
  | none => none

/-- `get_gspread_client` (utils.py lines 23-60): returns `None` (not an
error) when `client_email` or `private_key` is empty; otherwise authorizes
against the Google API.  The client object is abstracted to `Unit`;
`authorizeOk` models whether the external `gspread.authorize` call
succeeds (its failure is also caught and turned into `None`). -/
def get_gspread_client (cfg : Config) (authorizeOk : Bool) : Option Unit :=
  if cfg.GOOGLE_CLIENT_EMAIL = "" ∨ cfg.GOOGLE_PRIVATE_KEY = "" then none
  else if authorizeOk then some () else none

/-- Python `list.index`: position of the first occurrence (0-based).  The
source only calls it after a membership check, so the out-of-list value is
irrelevant. -/
def idxOf (a : String) : List String → Nat
  | [] => 0
  | x :: xs => if x = a then 0 else idxOf a xs + 1

/-- Replace the element at position `i` (no-op when out of range), used to
model single-cell assignment `df.at[i, col] = v` and `List.set`-style row
updates. -/
def listModify {α : Type} : List α → Nat → (α → α) → List α
  | [], _, _ => []
  | x :: xs, 0, f => f x :: xs
  | x :: xs, n + 1, f => x :: listModify xs n f

/-- `df.at[row, colName] = v` where `colName` sits at column position `c`:
modify one cell of one row. -/
def DataFrame.setCell (df : DataFrame) (i c : Nat) (v : Cell) : DataFrame :=
  ⟨df.cols, listModify df.rows i (fun r => listModify r c (fun _ => v))⟩

/-- `df['Remark'] = 'Pending Email'` on a frame without that column
(utils.py lines 276-278): append the column and backfill every row. -/
def DataFrame.addRemark (df : DataFrame) : DataFrame :=
  ⟨df.cols ++ ["Remark"], df.rows.map (fun r => r ++ [Cell.str "Pending Email"])⟩

/-- pandas `df.head(n)` (utils.py line 133): first `n` rows for `n ≥ 0`,
all but the last `|n|` rows for negative `n`. -/
def DataFrame.head (df : DataFrame) (n : Int) : DataFrame :=
  if 0 ≤ n then ⟨df.cols, df.rows.take n.toNat⟩
  else ⟨df.cols, df.rows.take (df.rows.length - (-n).toNat)⟩

/-- `if limit: df = df.head(limit)` (utils.py lines 131-133).  Python
truthiness: `None` and `0` skip the truncation. -/
def applyLimit (df : DataFrame) : Option Int → DataFrame
  | none => df
  | some l => if l = 0 then df else df.head l

/-- `df.fillna('')` (utils.py line 137): every missing cell becomes the
empty string; other cells are untouched. -/
def fillnaEmpty : Cell → Cell
  | .nan => .str ""
  | c => c

/-- strftime zero-padding to two digits. -/
def pad2 (n : Nat) : String :=
  if n < 10 then "0" ++ toString n else toString n

/-- strftime zero-padding of the year to four digits. -/
def pad4 (n : Nat) : String :=
  if n < 10 then "000" ++ toString n
  else if n < 100 then "00" ++ toString n
  else if n < 1000 then "0" ++ toString n
  else toString n

/-- `value.strftime('%Y-%m-%d')` (utils.py line 145). -/
def formatYMD (y m d : Nat) : String :=
  pad4 y ++ "-" ++ pad2 m ++ "-" ++ pad2 d

/-- The per-cell body of the serialisation loop (utils.py lines 140-145):
`None` if `pd.isna(value)`, the `'%Y-%m-%d'` rendering for a
Timestamp/datetime, the value itself otherwise. -/
def normLoop : Cell → JsonVal
  | .nan => .null
  | .date y m d => .s (formatYMD y m d)
  | .str s => .s s
  | .num n => .n n

/-- Lines 131-147 of `read_excel_data`: apply the limit, `fillna('')`,
convert to records (`to_dict('records')` keys each cell by its column
name), then run the datetime/NaN conversion loop over every record. -/
def normalize_limit (df : DataFrame) (limit : Option Int) :
    List (List (String × JsonVal)) :=
  let df1 := applyLimit df limit
  let recs := df1.rows.map (fun r => df1.cols.zip (r.map fillnaEmpty))
  recs.map (fun rec => rec.map (fun kv => (kv.1, normLoop kv.2)))

/-- Outcomes of the external calls the remote read path makes
(`read_google_sheet_as_excel`, utils.py lines 62-107): whether
`gspread.authorize` succeeds, whether the authenticated
`open_by_key`/`get_all_values` call succeeds and what grid it returns, and
whether the public-export fetch succeeds and what frame it parses to. -/
structure RemoteReadEnv where
  authorizeOk : Bool
  readOk : Bool
  values : List (List String)
  publicOk : Bool
  publicDf : DataFrame
deriving DecidableEq, Repr

/-- `read_google_sheet_as_excel` (utils.py lines 62-107): raise
`ValueError('Invalid Google Sheet URL')` when no sheet id can be
extracted; otherwise try the authenticated read (first grid row is the
header, the rest are string-cell data rows; an empty grid raises and is
caught), falling through to the public export on any failure; if that too
fails, raise the share-with-service-account guidance. -/
def read_google_sheet_as_excel (cfg : Config) (env : RemoteReadEnv) :
    Except String DataFrame :=
  match get_google_sheet_id cfg with
  | none => .error "Invalid Google Sheet URL"
  | some _ =>
    let authed : Option DataFrame :=
      match get_gspread_client cfg env.authorizeOk with
      | none => none
      | some _ =>
        if env.readOk then
          match env.values with
          | [] => none
          | hd :: tl => some ⟨hd, tl.map (fun r => r.map Cell.str)⟩
        else none
    match authed with
    | some df => .ok df
    | none =>
      if env.publicOk then .ok env.publicDf
      else .error ("Failed to read Google Sheet. Make sure it's shared with the service account: nmt-dashboard-service@dashboard-nmt-project.iam.gserviceaccount.com")

/-- Read-path errors, so the endpoint layer can distinguish
`FileNotFoundError` (404) from everything else (500). -/
inductive ReadErr where
  | fileNotFound : String → ReadErr
  | other : String → ReadErr
deriving DecidableEq, Repr

/-- `read_excel_data` (utils.py lines 113-150): acquire the frame from the
selected source (remote chain, or the local file — `FileNotFoundError`
when absent; the local path string is abstracted to the file name), then
normalize and truncate via `normalize_limit`. -/
def read_excel_data (cfg : Config) (env : RemoteReadEnv)
    (file : Option DataFrame) (limit : Option Int) :
    Except ReadErr (List (List (String × JsonVal))) :=
  if use_google_sheets cfg then
    match read_google_sheet_as_excel cfg env with
    | .error e => .error (.other e)
    | .ok df => .ok (normalize_limit df limit)
  else
    match file with
    | none => .error (.fileNotFound "Excel file not found at DATA_V2.xlsx")
    | some df => .ok (normalize_limit df limit)

/-- `get_excel_stats` (utils.py lines 191-216), restricted to the fields
the claims inspect: `(total_rows, total_columns, columns)`. -/
def get_excel_stats (df : DataFrame) : Nat × Nat × List String :=
  (df.rows.length, df.cols.length, df.cols)

/-- The result dict `update_remark` returns: `success` plus the `message`
(on success) or `error` (on failure) string. -/
structure Result where
  success : Bool
  message : String
deriving DecidableEq, Repr

/-- The remote worksheet as `update_remark` sees it (utils.py lines
233-248): whether `open_by_key` / the sheet access raises (it does, in
particular, when the sheet id is `None`), the message of that exception,
and the header row `worksheet.row_values(1)`. -/
structure RemoteSheet where
  openFails : Bool
  errMsg : String
  headers : List String
deriving DecidableEq, Repr

/-- Remote branch of `update_remark` (utils.py lines 223-257).  Returns
the result dict together with the list of `update_cell` writes performed
(each as 1-based row, 1-based column, value). -/
def update_remark_remote (cfg : Config) (authorizeOk : Bool)
    (sheet : RemoteSheet) (row_index : Int) (remark_value : Cell) :
    Result × List (Int × Nat × Cell) :=
  match get_gspread_client cfg authorizeOk with
  | none =>
    (⟨false, "Google Sheets write access not configured. Please set up service account credentials (see GOOGLE_SHEETS_WRITE_SETUP.md)"⟩, [])
  | some _ =>
    if (get_google_sheet_id cfg).isNone ∨ sheet.openFails then
      (⟨false, "Failed to update Google Sheet: " ++ sheet.errMsg⟩, [])
    else if "Remark" ∈ sheet.headers then
      (⟨true, "Remark updated successfully in Google Sheets"⟩,
       [(row_index + 2, idxOf "Remark" sheet.headers + 1, remark_value)])
    else
      (⟨false, "Remark column not found in Google Sheet"⟩, [])

/-- Local branch of `update_remark` (utils.py lines 259-299): fail when
the file is absent; read it, add a backfilled Remark column when missing,
validate the index (returning without writing on failure), set the one
cell and write the whole frame back.  Returns the result dict and the file
content afterwards. -/
def update_remark_local (file : Option DataFrame) (row_index : Int)
    (remark_value : Cell) : Result × Option DataFrame :=
  match file with
  | none => (⟨false, "Excel file not found"⟩, none)
  | some df0 =>
    let df := if "Remark" ∈ df0.cols then df0 else df0.addRemark
    if row_index < 0 ∨ (df.rows.length : Int) ≤ row_index then
      (⟨false, "Invalid row index. Valid range: 0-" ++
          toString ((df.rows.length : Int) - 1)⟩, some df0)
    else
      (⟨true, "Remark updated successfully"⟩,
       some (df.setCell row_index.toNat (idxOf "Remark" df.cols) remark_value))

/-- `update_remark` (utils.py lines 218-299): dispatch on the source
selector.  Returns the result dict, the remote cell writes performed, and
the local file content afterwards. -/
def update_remark (cfg : Config) (authorizeOk : Bool) (sheet : RemoteSheet)
    (file : Option DataFrame) (row_index : Int) (remark_value : Cell) :
    Result × List (Int × Nat × Cell) × Option DataFrame :=
  if use_google_sheets cfg then
    let o := update_remark_remote cfg authorizeOk sheet row_index remark_value
    (o.1, o.2, file)
  else
    let o := update_remark_local file row_index remark_value
    (o.1, [], o.2)

/-- A JSON body value as DRF's `request.data.get` hands it to the view;
absent fields and literal JSON `null` both come back as Python `None`,
modelled as `Option.none` at the call sites. -/
inductive BodyVal where
  | vstr : String → BodyVal
  | vint : Int → BodyVal
deriving DecidableEq, Repr

/-- The value as stored into the spreadsheet cell. -/
def BodyVal.toCell : BodyVal → Cell
  | .vstr s => .str s
  | .vint n => .num n

/-- Strip leading and trailing whitespace, as Python `int(str)` does
before parsing. -/
def stripWs (l : List Char) : List Char :=
  ((l.dropWhile Char.isWhitespace).reverse.dropWhile Char.isWhitespace).reverse

/-- Digit-run parser: `none` unless the input is one or more digits. -/
def parseDigits : List Char → Option Nat → Option Nat
  | [], acc => acc
  | c :: cs, acc =>
    if c.isDigit then parseDigits cs (some ((acc.getD 0) * 10 + (c.toNat - 48)))
    else none

/-- Python `int(s)` on a string: optional sign then digits, surrounded by
optional whitespace; `none` models the `ValueError`.  (Underscore digit
separators and non-ASCII digits are not modelled.) -/
def pyIntOfString (s : String) : Option Int :=
  match stripWs s.toList with
  | [] => none
  | c :: cs =>
    if c = '-' then (parseDigits cs none).map (fun n => -(n : Int))
    else (parseDigits (c :: cs) none).map (fun n => (n : Int))

/-- Python `int(x)` as the view applies it to a request body value
(views.py line 89): identity on an int, string parse (raising, modelled as
`.error`) on a string. -/
def pyInt : BodyVal → Except String Int
  | .vint n => .ok n
  | .vstr s =>
    match pyIntOfString s with
    | some n => .ok n
    | none => .error ("invalid literal for int() with base 10: '" ++ s ++ "'")

/-- Response body of the `update_remark` view: the 400 echo of both
received fields, a result dict, or the stringified unexpected exception. -/
inductive RespBody where
  | missingFields : Option BodyVal → Option BodyVal → RespBody
  | result : Result → RespBody
  | exc : String → RespBody
deriving DecidableEq, Repr

/-- `DashboardViewSet.update_remark` (views.py lines 71-101): 400 echoing
both fields when either is `None`; otherwise `int(row_index)` (an
exception lands in the catch-all 500), delegate to `update_remark`, and
map the result to 200 on success / 400 on failure.  Returns the
(status, body) pair plus the remote writes and resulting local file. -/
def update_remark_view (cfg : Config) (authorizeOk : Bool)
    (sheet : RemoteSheet) (file : Option DataFrame)
    (row_index remark_value : Option BodyVal) :
    (Nat × RespBody) × List (Int × Nat × Cell) × Option DataFrame :=
  match row_index, remark_value with
  | some a, some b =>
    (match pyInt a with
     | .error e => ((500, .exc e), [], file)
     | .ok i =>
       let o := update_remark cfg authorizeOk sheet file i b.toCell
       ((if o.1.success then 200 else 400, .result o.1), o.2))
  | a, b => ((400, .missingFields a b), [], file)

/-- Response of the `data` view: `{count, data}` on 200, or an error
status with the message. -/
inductive DataResp where
  | ok : Nat → List (List (String × JsonVal)) → DataResp
  | err : Nat → String → DataResp
deriving DecidableEq, Repr

/-- `DashboardViewSet.data` (views.py lines 34-58): parse `?limit` with
default 100 (also on parse failure), read, and answer `{count, data}`;
404 on `FileNotFoundError`, 500 on any other failure. -/
def data_view (cfg : Config) (env : RemoteReadEnv) (file : Option DataFrame)
    (limitParam : Option String) : DataResp :=
  let limit : Int :=
    match limitParam with
    | none => 100
    | some s => (pyIntOfString s).getD 100
  match read_excel_data cfg env file (some limit) with
  | .ok data => .ok data.length data
  | .error (.fileNotFound e) => .err 404 e
  | .error (.other e) => .err 500 e

/-! ## Helper lemmas -/

theorem zip_getElem? {α β : Type} (l₁ : List α) (l₂ : List β) (i : Nat) :
    (l₁.zip l₂)[i]? =
      l₁[i]?.bind (fun a => (l₂[i]?).map (fun b => (a, b))) := by
  induction l₁ generalizing l₂ i with
  | nil => simp
  | cons a as ih =>
    cases l₂ with
    | nil => simp
    | cons b bs =>
      cases i with
      | zero => simp
      | succ n => simpa using ih bs n

theorem applyLimit_cols (df : DataFrame) (limit : Option Int) :
    (applyLimit df limit).cols = df.cols := by
  cases limit with
  | none => rfl
  | some l =>
    by_cases h : l = 0
    · simp [applyLimit, h]
    · by_cases h2 : (0 : Int) ≤ l <;> simp [applyLimit, h, DataFrame.head, h2]

theorem normalize_limit_rows (df : DataFrame) (limit : Option Int) :
    normalize_limit df limit =
      ((applyLimit df limit).rows.map
        (fun r => df.cols.zip (r.map fillnaEmpty))).map
        (fun rec => rec.map (fun kv => (kv.1, normLoop kv.2))) := by
  simp only [normalize_limit, applyLimit_cols]

/-! ## Claims -/

/-- C9: `read_excel_data` with `limit = 0` returns the entire dataset, not
zero records — `if limit:` is Python-truthy, so the truncation is skipped —
and a `?limit=0` request to the `data` view receives every record. -/
theorem C9_limit_zero_returns_all (df : DataFrame) (cfg : Config)
    (env : RemoteReadEnv) (hflag : cfg.USE_GOOGLE_SHEETS = false) :
    normalize_limit df (some 0) = normalize_limit df none ∧
    (normalize_limit df (some 0)).length = df.rows.length ∧
    read_excel_data cfg env (some df) (some 0) =
      Except.ok (normalize_limit df none) ∧
    data_view cfg env (some df) (some "0") =
      DataResp.ok df.rows.length (normalize_limit df none) := by
  have hz : pyIntOfString "0" = some 0 := rfl
  have heq : normalize_limit df (some 0) = normalize_limit df none := rfl
  have hlen : (normalize_limit df (some 0)).length = df.rows.length := by
    simp [normalize_limit_rows, applyLimit]
  refine ⟨heq, hlen, ?_, ?_⟩
  · simp [read_excel_data, use_google_sheets, hflag, heq]
  · simp [data_view, hz, read_excel_data, use_google_sheets, hflag, heq,
      heq ▸ hlen]

/-- C9 witness: a concrete two-row frame read with `limit = 0` yields both
records. -/
theorem C9_limit_zero_returns_all_witness :
    normalize_limit ⟨["A"], [[Cell.str "x"], [Cell.str "y"]]⟩ (some 0) =
      normalize_limit ⟨["A"], [[Cell.str "x"], [Cell.str "y"]]⟩ none ∧
    (normalize_limit ⟨["A"], [[Cell.str "x"], [Cell.str "y"]]⟩ (some 0)).length = 2 ∧
    read_excel_data ⟨false, "", "", ""⟩ ⟨false, false, [], false, ⟨[], []⟩⟩
        (some ⟨["A"], [[Cell.str "x"], [Cell.str "y"]]⟩) (some 0) =
      Except.ok (normalize_limit ⟨["A"], [[Cell.str "x"], [Cell.str "y"]]⟩ none) ∧
    data_view ⟨false, "", "", ""⟩ ⟨false, false, [], false, ⟨[], []⟩⟩
        (some ⟨["A"], [[Cell.str "x"], [Cell.str "y"]]⟩) (some "0") =
      DataResp.ok 2 (normalize_limit ⟨["A"], [[Cell.str "x"], [Cell.str "y"]]⟩ none) :=
  C9_limit_zero_returns_all ⟨["A"], [[Cell.str "x"], [Cell.str "y"]]⟩
    ⟨false, "", "", ""⟩ ⟨false, false, [], false, ⟨[], []⟩⟩ rfl

/-- C2 counterexample: with one data row and `?limit=0`, the `data` view
returns 1 record, not `min(0, 1) = 0` as the claim requires for every
integer `N`. -/
theorem C2_counterexample_limit_zero :
    data_view ⟨false, "", "", ""⟩ ⟨false, false, [], false, ⟨[], []⟩⟩
        (some ⟨["A"], [[Cell.str "x"]]⟩) (some "0") =
      DataResp.ok 1 [[("A", JsonVal.s "x")]] ∧
    (1 : Nat) ≠ min ((0 : Int).toNat) 1 := by
  constructor
  · rfl
  · decide

/-- C2 (amended): for `N ≥ 1` the read returns exactly
`min(N, total_rows)` records and they are the normalization of the first
rows in source order (a prefix of the untruncated read); `N = 0` is
treated as "no limit" and returns every row; negative `N` returns all but
the last `|N|` rows (pandas `head` semantics). -/
theorem C2_limit_min (df : DataFrame) (N : Int) :
    (1 ≤ N →
      normalize_limit df (some N) = (normalize_limit df none).take N.toNat ∧
      (normalize_limit df (some N)).length = min N.toNat df.rows.length) ∧
    normalize_limit df (some 0) = normalize_limit df none ∧
    (N < 0 →
      (normalize_limit df (some N)).length = df.rows.length - (-N).toNat) := by
  refine ⟨fun hN => ?_, rfl, fun hN => ?_⟩
  · have h0 : ¬(N = 0) := by omega
    have h1 : (0 : Int) ≤ N := by omega
    constructor
    · simp only [normalize_limit_rows, applyLimit, h0, if_false, DataFrame.head,
        h1, if_true, List.map_take]
    · simp [normalize_limit_rows, applyLimit, h0, DataFrame.head, h1]
  · have h0 : ¬(N = 0) := by omega
    have h1 : ¬((0 : Int) ≤ N) := by omega
    simp only [normalize_limit_rows, applyLimit, h0, if_false, DataFrame.head,
      h1, List.length_map, List.length_take]
    omega

/-- C2 witness: at `N = 1` on a two-row frame the read is the one-record
prefix of the full read. -/
theorem C2_limit_min_witness :
    normalize_limit ⟨["A"], [[Cell.str "x"], [Cell.str "y"]]⟩ (some 1) =
      (normalize_limit ⟨["A"], [[Cell.str "x"], [Cell.str "y"]]⟩ none).take ((1 : Int).toNat) ∧
    (normalize_limit ⟨["A"], [[Cell.str "x"], [Cell.str "y"]]⟩ (some 1)).length =
      min ((1 : Int).toNat) 2 :=
  (C2_limit_min ⟨["A"], [[Cell.str "x"], [Cell.str "y"]]⟩ 1).1 (by decide)

/-- C1 counterexample: a frame whose single cell is missing (NaN) is
returned with that cell serialised as the empty string `""`, not as null —
`fillna('')` runs before the `pd.isna → None` loop, so the loop never sees
a missing value. -/
theorem C1_counterexample_nan_not_null :
    normalize_limit ⟨["A"], [[Cell.nan]]⟩ none = [[("A", JsonVal.s "")]] ∧
    JsonVal.s "" ≠ JsonVal.null := by
  constructor
  · rfl
  · decide

/-- C1 (amended): in every record returned by the Reader's normalization,
a cell that was missing/NaN-equivalent in the source is the empty string
`""` (not null: `fillna('')` precedes the null-conversion loop, whose NaN
branch is therefore dead), a date/time cell is rendered as a
`'YYYY-MM-DD'` string, and other cells are carried over unchanged; the
normalization is applied before the result is returned. -/
theorem C1_normalization (df : DataFrame) (limit : Option Int) (i j : Nat)
    (row : List Cell) (c : Cell) (name : String)
    (hrow : (applyLimit df limit).rows[i]? = some row)
    (hc : row[j]? = some c)
    (hname : df.cols[j]? = some name) :
    ∃ rec, (normalize_limit df limit)[i]? = some rec ∧
      rec[j]? = some (name, match c with
        | Cell.nan => JsonVal.s ""
        | Cell.date y m d => JsonVal.s (formatYMD y m d)
        | Cell.str s => JsonVal.s s
        | Cell.num n => JsonVal.n n) := by
  rw [normalize_limit_rows]
  refine ⟨(df.cols.zip (row.map fillnaEmpty)).map (fun kv => (kv.1, normLoop kv.2)),
    ?_, ?_⟩
  · simp only [List.getElem?_map, hrow, Option.map_some']
  · simp only [List.getElem?_map, zip_getElem?, hname, hc, Option.map_some',
      Option.some_bind]
    cases c <;> rfl

/-- C1 witness: a concrete frame with a missing cell and a date cell,
serialised to `""` and `"2024-03-07"` respectively. -/
theorem C1_normalization_witness :
    (∃ rec, (normalize_limit ⟨["A", "B"], [[Cell.nan, Cell.date 2024 3 7]]⟩ none)[0]? =
        some rec ∧ rec[0]? = some ("A", JsonVal.s "")) ∧
    (∃ rec, (normalize_limit ⟨["A", "B"], [[Cell.nan, Cell.date 2024 3 7]]⟩ none)[0]? =
        some rec ∧ rec[1]? = some ("B", JsonVal.s "2024-03-07")) := by
  constructor
  · exact C1_normalization ⟨["A", "B"], [[Cell.nan, Cell.date 2024 3 7]]⟩ none 0 0
      [Cell.nan, Cell.date 2024 3 7] Cell.nan "A" rfl rfl rfl
  · exact C1_normalization ⟨["A", "B"], [[Cell.nan, Cell.date 2024 3 7]]⟩ none 0 1
      [Cell.nan, Cell.date 2024 3 7] (Cell.date 2024 3 7) "B" rfl rfl rfl

theorem listModify_length {α : Type} (l : List α) (i : Nat) (f : α → α) :
    (listModify l i f).length = l.length := by
  induction l generalizing i with
  | nil => rfl
  | cons x xs ih =>
    cases i with
    | zero => rfl
    | succ n => simpa [listModify] using ih n

theorem listModify_getElem_ne {α : Type} (l : List α) (i j : Nat) (f : α → α)
    (h : i ≠ j) : (listModify l i f)[j]? = l[j]? := by
  induction l generalizing i j with
  | nil => simp [listModify]
  | cons x xs ih =>
    cases i with
    | zero =>
      cases j with
      | zero => omega
      | succ m => simp [listModify]
    | succ n =>
      cases j with
      | zero => simp [listModify]
      | succ m => simpa [listModify] using ih n m (by omega)

theorem listModify_getElem_self {α : Type} (l : List α) (i : Nat) (f : α → α) :
    (listModify l i f)[i]? = l[i]?.map f := by
  induction l generalizing i with
  | nil => simp [listModify]
  | cons x xs ih =>
    cases i with
    | zero => simp [listModify]
    | succ n => simpa [listModify] using ih n

theorem listModify_append_last {α : Type} (l : List α) (p : α) (f : α → α) :
    listModify (l ++ [p]) l.length f = l ++ [f p] := by
  induction l with
  | nil => rfl
  | cons x xs ih => simp [listModify, ih]

theorem idxOf_append_self (a : String) (l : List String) (h : a ∉ l) :
    idxOf a (l ++ [a]) = l.length := by
  induction l with
  | nil => simp [idxOf]
  | cons x xs ih =>
    rw [List.mem_cons, not_or] at h
    have hx : ¬(x = a) := fun e => h.1 e.symm
    simp only [List.cons_append, idxOf, hx, if_false, List.length_cons]
    show idxOf a (xs ++ [a]) + 1 = xs.length + 1
    rw [ih h.2]

theorem idxOf_lt_length (a : String) (l : List String) (h : a ∈ l) :
    idxOf a l < l.length := by
  induction l with
  | nil => simp at h
  | cons x xs ih =>
    by_cases hx : x = a
    · simp [idxOf, hx]
    · rw [List.mem_cons] at h
      have hm : a ∈ xs := h.resolve_left (fun e => hx e.symm)
      simpa [idxOf, hx] using Nat.succ_lt_succ (ih hm)

theorem update_remark_local_out_of_range (df : DataFrame) (ri : Int) (v : Cell)
    (hout : ri < 0 ∨ (df.rows.length : Int) ≤ ri) :
    update_remark_local (some df) ri v =
      (⟨false, "Invalid row index. Valid range: 0-" ++
          toString ((df.rows.length : Int) - 1)⟩, some df) := by
  by_cases hmem : "Remark" ∈ df.cols
  · simp only [update_remark_local, hmem, if_true, if_pos hout]
  · have hlen : (DataFrame.addRemark df).rows.length = df.rows.length := by
      simp [DataFrame.addRemark]
    simp only [update_remark_local, hmem, if_false, hlen, if_pos hout]

/-- C4: on the local path, an out-of-range `row_index` (negative or
`≥ total_rows`) leaves the file unchanged — the early return skips the
write-back — and yields a failure result whose message names the valid
index range `0-(total_rows−1)`. -/
theorem C4_out_of_range_no_mutation (cfg : Config) (authorizeOk : Bool)
    (sheet : RemoteSheet) (df : DataFrame) (ri : Int) (v : Cell)
    (hflag : cfg.USE_GOOGLE_SHEETS = false)
    (hout : ri < 0 ∨ (df.rows.length : Int) ≤ ri) :
    update_remark cfg authorizeOk sheet (some df) ri v =
      (⟨false, "Invalid row index. Valid range: 0-" ++
          toString ((df.rows.length : Int) - 1)⟩, [], some df) := by
  simp only [update_remark, use_google_sheets, hflag, Bool.false_eq_true, if_false,
    update_remark_local_out_of_range df ri v hout]

/-- C4 witness: index 5 on a 5-row file (and −1 likewise) is rejected with
the range message and the file is returned unchanged. -/
theorem C4_out_of_range_no_mutation_witness :
    update_remark ⟨false, "", "", ""⟩ false ⟨false, "", []⟩
        (some ⟨["A"], [[Cell.num 1], [Cell.num 2], [Cell.num 3], [Cell.num 4], [Cell.num 5]]⟩)
        5 (Cell.str "x") =
      (⟨false, "Invalid row index. Valid range: 0-4"⟩, [],
       some ⟨["A"], [[Cell.num 1], [Cell.num 2], [Cell.num 3], [Cell.num 4], [Cell.num 5]]⟩) :=
  C4_out_of_range_no_mutation ⟨false, "", "", ""⟩ false ⟨false, "", []⟩
    ⟨["A"], [[Cell.num 1], [Cell.num 2], [Cell.num 3], [Cell.num 4], [Cell.num 5]]⟩
    5 (Cell.str "x") rfl (by decide)

/-- C5: on the local path with no `Remark` column and a valid index `i`,
the persisted file gains a `Remark` column backfilled with
`"Pending Email"` on every row except row `i`, which holds the supplied
value; no other cell changes, no row is added, removed or reordered, and
`total_columns` in the stats grows by one. -/
theorem C5_add_remark_column (cfg : Config) (authorizeOk : Bool)
    (sheet : RemoteSheet) (df : DataFrame) (i : Nat) (v : Cell)
    (hflag : cfg.USE_GOOGLE_SHEETS = false)
    (hno : "Remark" ∉ df.cols)
    (hi : i < df.rows.length)
    (hwf : ∀ r ∈ df.rows, r.length = df.cols.length) :
    ∃ df', update_remark cfg authorizeOk sheet (some df) (i : Int) v =
        (⟨true, "Remark updated successfully"⟩, [], some df') ∧
      df'.cols = df.cols ++ ["Remark"] ∧
      df'.rows.length = df.rows.length ∧
      (∀ j : Nat, j ≠ i → df'.rows[j]? =
        (df.rows[j]?).map (fun r => r ++ [Cell.str "Pending Email"])) ∧
      (∀ r, df.rows[i]? = some r → df'.rows[i]? = some (r ++ [v])) ∧
      (get_excel_stats df').2.1 = (get_excel_stats df).2.1 + 1 := by
  have hnat : ((i : Int)).toNat = i := Int.toNat_natCast i
  have hlen1 : (DataFrame.addRemark df).rows.length = df.rows.length := by
    simp [DataFrame.addRemark]
  have hcond : ¬(((i : Nat) : Int) < 0 ∨
      ((DataFrame.addRemark df).rows.length : Int) ≤ ((i : Nat) : Int)) := by
    rw [hlen1]
    omega
  have hcol : idxOf "Remark" (DataFrame.addRemark df).cols = df.cols.length := by
    simpa [DataFrame.addRemark] using idxOf_append_self "Remark" df.cols hno
  refine ⟨(DataFrame.addRemark df).setCell i df.cols.length v, ?_, rfl, ?_, ?_, ?_, ?_⟩
  · simp only [update_remark, use_google_sheets, hflag, Bool.false_eq_true, if_false,
      update_remark_local, hno, if_false, if_neg hcond, hnat, hcol]
  · simp [DataFrame.setCell, listModify_length, DataFrame.addRemark]
  · intro j hj
    simp only [DataFrame.setCell, listModify_getElem_ne _ i j _ (fun e => hj e.symm),
      DataFrame.addRemark, List.getElem?_map]
  · intro r hr
    have hmem := List.getElem?_mem hr
    have hrl : r.length = df.cols.length := hwf r hmem
    simp only [DataFrame.setCell, listModify_getElem_self, DataFrame.addRemark,
      List.getElem?_map, hr, Option.map_some']
    rw [← hrl, listModify_append_last]
  · simp [get_excel_stats, DataFrame.setCell, DataFrame.addRemark]

/-- C5 witness: the spec's concrete scenario — a 5-row file without a
Remark column, `update_remark(2, "Contacted")` — yields "Pending Email"
on rows 0,1,3,4, "Contacted" on row 2, and one more column in the stats. -/
theorem C5_add_remark_column_witness :
    ∃ df', update_remark ⟨false, "", "", ""⟩ false ⟨false, "", []⟩
        (some ⟨["Name"], [[Cell.str "a"], [Cell.str "b"], [Cell.str "c"],
          [Cell.str "d"], [Cell.str "e"]]⟩) ((2 : Nat) : Int) (Cell.str "Contacted") =
        (⟨true, "Remark updated successfully"⟩, [], some df') ∧
      df'.cols = ["Name"] ++ ["Remark"] ∧
      df'.rows.length = 5 ∧
      (∀ j : Nat, j ≠ 2 → df'.rows[j]? =
        (([[Cell.str "a"], [Cell.str "b"], [Cell.str "c"], [Cell.str "d"],
           [Cell.str "e"]] : List (List Cell))[j]?).map
          (fun r => r ++ [Cell.str "Pending Email"])) ∧
      (∀ r, ([[Cell.str "a"], [Cell.str "b"], [Cell.str "c"], [Cell.str "d"],
          [Cell.str "e"]] : List (List Cell))[2]? = some r →
        df'.rows[2]? = some (r ++ [Cell.str "Contacted"])) ∧
      (get_excel_stats df').2.1 =
        (get_excel_stats ⟨["Name"], [[Cell.str "a"], [Cell.str "b"], [Cell.str "c"],
          [Cell.str "d"], [Cell.str "e"]]⟩).2.1 + 1 :=
  C5_add_remark_column ⟨false, "", "", ""⟩ false ⟨false, "", []⟩
    ⟨["Name"], [[Cell.str "a"], [Cell.str "b"], [Cell.str "c"], [Cell.str "d"],
      [Cell.str "e"]]⟩ 2 (Cell.str "Contacted") rfl (by decide) (by decide) (by decide)

/-- C7: with `client_email` or `private_key` empty, the credential
resolver returns "unavailable" (`None`) rather than an error, and under
the remote source `update_remark` performs no write, leaves the local file
alone, and fails with the message directing the operator to configure
service-account write credentials. -/
theorem C7_no_credentials (cfg : Config) (authorizeOk : Bool)
    (sheet : RemoteSheet) (file : Option DataFrame) (ri : Int) (v : Cell)
    (hflag : cfg.USE_GOOGLE_SHEETS = true)
    (hcred : cfg.GOOGLE_CLIENT_EMAIL = "" ∨ cfg.GOOGLE_PRIVATE_KEY = "") :
    get_gspread_client cfg authorizeOk = none ∧
    update_remark cfg authorizeOk sheet file ri v =
      (⟨false, "Google Sheets write access not configured. Please set up service account credentials (see GOOGLE_SHEETS_WRITE_SETUP.md)"⟩,
       [], file) := by
  have hcli : get_gspread_client cfg authorizeOk = none := by
    unfold get_gspread_client
    rw [if_pos hcred]
  refine ⟨hcli, ?_⟩
  simp [update_remark, use_google_sheets, hflag, update_remark_remote, hcli]

/-- C7 witness: an empty `client_email` with the remote flag set yields an
unavailable client and the guidance message, with no write performed. -/
theorem C7_no_credentials_witness :
    get_gspread_client ⟨true, "https://docs.google.com/spreadsheets/d/S1/edit", "", "k"⟩ true = none ∧
    update_remark ⟨true, "https://docs.google.com/spreadsheets/d/S1/edit", "", "k"⟩ true
        ⟨false, "", ["Remark"]⟩ none 0 (Cell.str "x") =
      (⟨false, "Google Sheets write access not configured. Please set up service account credentials (see GOOGLE_SHEETS_WRITE_SETUP.md)"⟩,
       [], none) :=
  C7_no_credentials ⟨true, "https://docs.google.com/spreadsheets/d/S1/edit", "", "k"⟩
    true ⟨false, "", ["Remark"]⟩ none 0 (Cell.str "x") rfl (Or.inl rfl)

/-- C3: on the remote path with a usable credential bundle and a reachable
worksheet, `update_remark` reads the header row; if no "Remark" header
exists it fails with the column-not-found result and writes nothing;
otherwise it performs exactly one cell write at spreadsheet position
`(row_index + 2, remark_column)` where `remark_column` is the 1-based
position of the "Remark" header — so `row_index = 0` targets row 2. -/
theorem C3_remote_write_cell (cfg : Config) (authorizeOk : Bool)
    (sheet : RemoteSheet) (file : Option DataFrame) (ri : Int) (v : Cell)
    (hflag : cfg.USE_GOOGLE_SHEETS = true)
    (hclient : get_gspread_client cfg authorizeOk = some ())
    (hsheet : (get_google_sheet_id cfg).isNone = false)
    (hopen : sheet.openFails = false) :
    ("Remark" ∉ sheet.headers →
      update_remark cfg authorizeOk sheet file ri v =
        (⟨false, "Remark column not found in Google Sheet"⟩, [], file)) ∧
    ("Remark" ∈ sheet.headers →
      update_remark cfg authorizeOk sheet file ri v =
        (⟨true, "Remark updated successfully in Google Sheets"⟩,
         [(ri + 2, idxOf "Remark" sheet.headers + 1, v)], file)) := by
  constructor <;> intro hmem <;>
    simp [update_remark, use_google_sheets, hflag, update_remark_remote, hclient,
      hsheet, hopen, hmem]

/-- C3 witness: a sheet with headers `["Email", "Remark"]` and
`row_index = 0` gets exactly one write at spreadsheet cell (2, 2). -/
theorem C3_remote_write_cell_witness :
    update_remark
        ⟨true, "https://docs.google.com/spreadsheets/d/SID123/edit#gid=0",
         "svc@example.com", "PRIVATEKEY"⟩
        true ⟨false, "", ["Email", "Remark"]⟩ none 0 (Cell.str "Done") =
      (⟨true, "Remark updated successfully in Google Sheets"⟩,
       [(2, 2, Cell.str "Done")], none) :=
  (C3_remote_write_cell
      ⟨true, "https://docs.google.com/spreadsheets/d/SID123/edit#gid=0",
       "svc@example.com", "PRIVATEKEY"⟩
      true ⟨false, "", ["Email", "Remark"]⟩ none 0 (Cell.str "Done")
      rfl rfl (by decide) rfl).2 (by decide)

/-- C6 counterexample: remote flag on, URL without a `/d/` segment, and a
present credential bundle — `update_remark` fails, but its error is the
wrapped sheet-access failure, not "Invalid Google Sheet URL" as the claim
requires for every operation. -/
theorem C6_counterexample_update_message :
    (update_remark
        ⟨true, "https://docs.google.com/spreadsheets/abc", "svc@example.com", "KEY"⟩
        true ⟨true, "404 not found", []⟩ none 0 (Cell.str "x")).1 =
      ⟨false, "Failed to update Google Sheet: 404 not found"⟩ ∧
    "Failed to update Google Sheet: 404 not found" ≠ "Invalid Google Sheet URL" := by
  constructor
  · rfl
  · decide

/-- C6 (amended): with the remote flag true and a URL lacking a `/d/`
segment, every read fails and is surfaced as "Invalid Google Sheet URL";
`update_remark` also fails without performing a write or touching the
local file, but its message is the write-credentials guidance (no client)
or the wrapped "Failed to update Google Sheet: ..." error (client
present), never "Invalid Google Sheet URL". -/
theorem C6_bad_url (cfg : Config) (env : RemoteReadEnv) (sheet : RemoteSheet)
    (file : Option DataFrame) (limit : Option Int) (ri : Int) (v : Cell)
    (authorizeOk : Bool)
    (hflag : cfg.USE_GOOGLE_SHEETS = true)
    (hurl : get_google_sheet_id cfg = none) :
    read_google_sheet_as_excel cfg env = Except.error "Invalid Google Sheet URL" ∧
    read_excel_data cfg env file limit =
      Except.error (ReadErr.other "Invalid Google Sheet URL") ∧
    (update_remark cfg authorizeOk sheet file ri v).1.success = false ∧
    (update_remark cfg authorizeOk sheet file ri v).2.1 = [] ∧
    (update_remark cfg authorizeOk sheet file ri v).2.2 = file ∧
    ((update_remark cfg authorizeOk sheet file ri v).1.message =
        "Google Sheets write access not configured. Please set up service account credentials (see GOOGLE_SHEETS_WRITE_SETUP.md)" ∨
      (update_remark cfg authorizeOk sheet file ri v).1.message =
        "Failed to update Google Sheet: " ++ sheet.errMsg) := by
  have hread : read_google_sheet_as_excel cfg env =
      Except.error "Invalid Google Sheet URL" := by
    simp [read_google_sheet_as_excel, hurl]
  refine ⟨hread, ?_, ?_⟩
  · simp [read_excel_data, use_google_sheets, hflag, hread]
  · cases hc : get_gspread_client cfg authorizeOk with
    | none =>
      simp [update_remark, use_google_sheets, hflag, update_remark_remote, hc]
    | some u =>
      simp [update_remark, use_google_sheets, hflag, update_remark_remote, hc, hurl]

/-- C6 witness: a URL with no `/d/` segment and no credentials — the read
surfaces "Invalid Google Sheet URL" and the update fails without writing. -/
theorem C6_bad_url_witness :
    read_google_sheet_as_excel ⟨true, "no-sheet-url", "", ""⟩
        ⟨true, true, [], true, ⟨[], []⟩⟩ =
      Except.error "Invalid Google Sheet URL" ∧
    read_excel_data ⟨true, "no-sheet-url", "", ""⟩ ⟨true, true, [], true, ⟨[], []⟩⟩
        none none =
      Except.error (ReadErr.other "Invalid Google Sheet URL") ∧
    (update_remark ⟨true, "no-sheet-url", "", ""⟩ true ⟨false, "", []⟩
        none 0 (Cell.str "x")).1.success = false ∧
    (update_remark ⟨true, "no-sheet-url", "", ""⟩ true ⟨false, "", []⟩
        none 0 (Cell.str "x")).2.1 = [] ∧
    (update_remark ⟨true, "no-sheet-url", "", ""⟩ true ⟨false, "", []⟩
        none 0 (Cell.str "x")).2.2 = none ∧
    ((update_remark ⟨true, "no-sheet-url", "", ""⟩ true ⟨false, "", []⟩
        none 0 (Cell.str "x")).1.message =
        "Google Sheets write access not configured. Please set up service account credentials (see GOOGLE_SHEETS_WRITE_SETUP.md)" ∨
      (update_remark ⟨true, "no-sheet-url", "", ""⟩ true ⟨false, "", []⟩
        none 0 (Cell.str "x")).1.message =
        "Failed to update Google Sheet: " ++ (⟨false, "", []⟩ : RemoteSheet).errMsg) :=
  C6_bad_url ⟨true, "no-sheet-url", "", ""⟩ ⟨true, true, [], true, ⟨[], []⟩⟩
    ⟨false, "", []⟩ none none 0 (Cell.str "x") true rfl rfl

/-- C8: the `update_remark` endpoint answers 400 echoing both fields as
received when `row_index` or `remark_value` is absent/null; with both
present it answers 200 on a success result, 400 on a reported failure
result, and 500 (with the stringified exception) when `int(row_index)`
raises. -/
theorem C8_view_statuses (cfg : Config) (authorizeOk : Bool)
    (sheet : RemoteSheet) (file : Option DataFrame) (ri rv : Option BodyVal) :
    ((ri = none ∨ rv = none) →
      update_remark_view cfg authorizeOk sheet file ri rv =
        ((400, RespBody.missingFields ri rv), [], file)) ∧
    (∀ a b, ri = some a → rv = some b →
      (∀ e, pyInt a = Except.error e →
        update_remark_view cfg authorizeOk sheet file ri rv =
          ((500, RespBody.exc e), [], file)) ∧
      (∀ n, pyInt a = Except.ok n →
        update_remark_view cfg authorizeOk sheet file ri rv =
          ((if (update_remark cfg authorizeOk sheet file n b.toCell).1.success
              then 200 else 400,
            RespBody.result (update_remark cfg authorizeOk sheet file n b.toCell).1),
           (update_remark cfg authorizeOk sheet file n b.toCell).2))) := by
  constructor
  · intro h
    rcases h with h | h
    · subst h; cases rv <;> rfl
    · subst h; cases ri <;> rfl
  · intro a b ha hb
    subst ha; subst hb
    constructor
    · intro e he
      simp [update_remark_view, he]
    · intro n hn
      simp [update_remark_view, hn]

/-- C8 witness: a request body with `row_index` omitted yields a 400 whose
body echoes both fields exactly as received. -/
theorem C8_view_statuses_witness :
    update_remark_view ⟨false, "", "", ""⟩ false ⟨false, "", []⟩ none
        none (some (BodyVal.vstr "Contacted")) =
      ((400, RespBody.missingFields none (some (BodyVal.vstr "Contacted"))), [], none) :=
  (C8_view_statuses ⟨false, "", "", ""⟩ false ⟨false, "", []⟩ none
      none (some (BodyVal.vstr "Contacted"))).1 (Or.inl rfl)

/-- C10: the endpoint's required-field check only rejects absent/null
values — an empty-string `remark_value` passes it, the write succeeds
(status 200), and the persisted row's Remark cell holds exactly the empty
string. -/
theorem C10_empty_string_written (cfg : Config) (authorizeOk : Bool)
    (sheet : RemoteSheet) (df : DataFrame) (i : Nat)
    (hflag : cfg.USE_GOOGLE_SHEETS = false)
    (hmem : "Remark" ∈ df.cols)
    (hi : i < df.rows.length)
    (hwf : ∀ r ∈ df.rows, r.length = df.cols.length) :
    ∃ df', update_remark_view cfg authorizeOk sheet (some df)
        (some (BodyVal.vint (i : Int))) (some (BodyVal.vstr "")) =
      ((200, RespBody.result ⟨true, "Remark updated successfully"⟩), [], some df') ∧
      ∃ row, df'.rows[i]? = some row ∧
        row[idxOf "Remark" df.cols]? = some (Cell.str "") := by
  have hnat : ((i : Nat) : Int).toNat = i := Int.toNat_natCast i
  have hcond : ¬(((i : Nat) : Int) < 0 ∨ (df.rows.length : Int) ≤ ((i : Nat) : Int)) := by
    omega
  have hr : df.rows[i]? = some df.rows[i] := List.getElem?_eq_getElem hi
  have hrlen : df.rows[i].length = df.cols.length :=
    hwf df.rows[i] (List.getElem?_mem hr)
  have hcol : idxOf "Remark" df.cols < df.rows[i].length :=
    hrlen ▸ idxOf_lt_length "Remark" df.cols hmem
  refine ⟨df.setCell i (idxOf "Remark" df.cols) (Cell.str ""), ?_, ?_⟩
  · have hc2 : ¬(((i : Nat) : Int) < 0 ∨ df.rows.length ≤ i) := by omega
    simp [update_remark_view, pyInt, update_remark, use_google_sheets, hflag,
      update_remark_local, hmem, hcond, hc2, hnat, BodyVal.toCell]
  · refine ⟨listModify df.rows[i] (idxOf "Remark" df.cols) (fun _ => Cell.str ""),
      ?_, ?_⟩
    · simp [DataFrame.setCell, listModify_getElem_self, hr]
    · simp [listModify_getElem_self, List.getElem?_eq_getElem hcol]

/-- C10 witness: writing the empty string over a one-row file with a
Remark column answers 200 and persists `""` in that cell. -/
theorem C10_empty_string_written_witness :
    ∃ df', update_remark_view ⟨false, "", "", ""⟩ false ⟨false, "", []⟩
        (some ⟨["Remark"], [[Cell.str "Pending Email"]]⟩)
        (some (BodyVal.vint ((0 : Nat) : Int))) (some (BodyVal.vstr "")) =
      ((200, RespBody.result ⟨true, "Remark updated successfully"⟩), [], some df') ∧
      ∃ row, df'.rows[0]? = some row ∧
        row[idxOf "Remark" ["Remark"]]? = some (Cell.str "") :=
  C10_empty_string_written ⟨false, "", "", ""⟩ false ⟨false, "", []⟩
    ⟨["Remark"], [[Cell.str "Pending Email"]]⟩ 0 rfl (by decide) (by decide) (by decide)
